import Mathlib

/-!
Verification development for the Discord gateway connection core of the
playground repository.

The source files embedded here are:
  * `src/javascript/features/nuwani/discord/discord_connection.js`
    (class `DiscordConnection`)
  * `src/javascript/features/nuwani/discord/discord_socket.js`
    (class `DiscordSocket`)
together with a spec-modelled `BackoffPolicy`
(`features/nuwani/runtime/backoff_policy.js` is imported by
`discord_socket.js` but the file itself is not part of the sources).

Modelling conventions:
  * A `DiscordConnection` owns exactly one `DiscordSocket`, so the fields of
    both objects are flattened into a single `GatewayState` record.
  * JavaScript `Symbol(...)` tokens are modelled by a monotone counter
    (`counter`): each token is the current counter value, which is then
    incremented; symbols are only compared by identity, which the counter
    preserves.
  * The cooperative (single-threaded, `async`/`await`) execution model is
    embedded as a small-step system: each suspension point of the source
    (`await wait(...)`, `await socket.open(...)`) splits a JS function into
    synchronous segments, and each segment is a Lean state transformer.
    External stimuli (delegate callbacks, timer wake-ups, application calls)
    are `Event`s; `step` dispatches an event to the corresponding segment.
  * `DiscordSocket.write` has an empty body in the source (a stub): it
    resolves to `undefined` and performs no transport I/O.  To be able to
    state properties about the messages handed to the transport boundary,
    the state carries `written`, the list of arguments `write` has received,
    in order.  `write` has no other effect.
  * Raw-socket `close()` calls are counted in `closeCalls`; the raw socket
    itself (its `state` property) is an opaque `SocketState` value only read
    by `DiscordSocket.disconnect`.
  * A JS function that can `throw` is modelled as returning
    `Bool × GatewayState`, the `Bool` being `true` exactly when the call
    throws; the state component records the mutations performed before the
    throw.
-/

set_option autoImplicit false

/-- States the raw socket can be in; mirrors `DiscordSocket.kState*`. -/
inductive SocketState
  | connected
  | connecting
  | disconnecting
  | disconnected
deriving DecidableEq, Repr

/-- The suspension point at which a `DiscordSocket.connect` loop instance is
currently parked: the initial back-off `wait`, an `await socket.open(...)`
call, or the retry-delay `wait` at the bottom of the do/while loop. -/
inductive LoopPhase
  | initialWait
  | attempting
  | retryWait
deriving DecidableEq, Repr

/-- Payload data (`d`) of an outbound envelope.  The connection itself only
ever sends the default `{}`; the application may pass arbitrary payloads,
which we index abstractly. -/
inductive OutData
  | empty
  | payload (id : Nat)
deriving DecidableEq, Repr

/-- The structured envelope `{ op, d, s, t }` handed to
`DiscordSocket.write`, as built by `DiscordConnection.sendOpcodeMessage`.
This also serves as the (destructured) argument record of
`sendOpcodeMessage`, whose JS defaults are `d = {}`, `s = null`,
`t = null`. -/
structure OutMessage where
  op : Nat
  d : OutData
  s : Option Nat
  t : Option String
deriving DecidableEq, Repr

/-- The `d` field of an inbound gateway message, restricted to the one
property the embedded code reads.  `hasHeartbeatInterval` models
`d.hasOwnProperty('heartbeat_interval')`; `heartbeatInterval` is the value
when it is an actual number (`none` models both an absent property and a
nullish value, which is what `??` tests). -/
structure InboundData where
  hasHeartbeatInterval : Bool
  heartbeatInterval : Option Nat
deriving DecidableEq, Repr

/-- An inbound gateway message; the handlers only read `op` and
`d.heartbeat_interval`. -/
structure InboundMessage where
  op : Nat
  d : InboundData
deriving DecidableEq, Repr

/-- Modelled from the spec: `features/nuwani/runtime/backoff_policy.js` is
imported by `discord_socket.js` but is not among the sources; only its call
sites are.  Per spec section 4.1 the policy is a pure state machine over an
attempt counter: the delay is the idle baseline (about zero) with no
recorded failures, and otherwise doubles per failure from an initial delay
up to a maximum ceiling.  The random jitter component is seedable and is
fixed here at zero (the deterministic seed).  Method names follow the call
sites in `discord_socket.js`. -/
structure BackoffPolicy where
  failureCount : Nat
deriving DecidableEq, Repr

namespace BackoffPolicy

/-- Modelled from the spec: the idle-baseline delay, "next delay ≈ 0". -/
def kIdleDelayMs : Nat := 0

/-- Modelled from the spec: the delay after a single failure; the spec fixes
no concrete number ("typically doubling per failure"), we use 4 seconds. -/
def kInitialDelayMs : Nat := 4000

/-- Modelled from the spec: the maximum ceiling on the computed delay. -/
def kMaximumDelayMs : Nat := 640000

/-- A freshly constructed policy has no failure history. -/
def init : BackoffPolicy := ⟨0⟩

/-- Modelled from the spec: delay until the next connection attempt, a pure
function of the accumulated failure count, doubling and capped. -/
def getTimeToNextRequestMs (p : BackoffPolicy) : Nat :=
  match p.failureCount with
  | 0 => kIdleDelayMs
  | n + 1 => min (kInitialDelayMs * 2 ^ n) kMaximumDelayMs

/-- Modelled from the spec: a success resets the state to the idle
baseline. -/
def markRequestSuccessful (_p : BackoffPolicy) : BackoffPolicy := ⟨0⟩

/-- Modelled from the spec: a failure advances the attempt counter. -/
def markRequestFailed (p : BackoffPolicy) : BackoffPolicy :=
  ⟨p.failureCount + 1⟩

/-- Modelled from the spec: forcibly return to the baseline without implying
success (used when an attempt is abandoned as superseded). -/
def resetToIdle (_p : BackoffPolicy) : BackoffPolicy := ⟨0⟩

end BackoffPolicy

/-- The combined mutable state of one `DiscordConnection` and the
`DiscordSocket` it owns.  Fields named with a trailing underscore are the
private fields of the source classes; the remaining fields are the
bookkeeping of the embedding (live coroutine instances, the observation log
of `write`, the raw-socket `close()` call count, and the symbol counter). -/
structure GatewayState where
  /-- `DiscordConnection.#connect_`: the connection-intent flag. -/
  connect_ : Bool
  /-- `DiscordConnection.#connecting_`. -/
  connecting_ : Bool
  /-- `DiscordConnection.#connected_`. -/
  connected_ : Bool
  /-- `DiscordConnection.#heartbeatAckTime_`. -/
  heartbeatAckTime_ : Option Nat
  /-- `DiscordConnection.#heartbeatIntervalMs_`. -/
  heartbeatIntervalMs_ : Option Nat
  /-- `DiscordConnection.#heartbeatMonitorToken_`. -/
  heartbeatMonitorToken_ : Option Nat
  /-- `DiscordSocket.#connectionToken_`. -/
  connectionToken_ : Option Nat
  /-- `DiscordSocket.#disposed_`. -/
  disposed_ : Bool
  /-- The raw socket's `state` property, read by `DiscordSocket.disconnect`. -/
  socketState : SocketState
  /-- Tokens of `heartbeatMonitor` loop instances that have been started and
  have not yet returned. -/
  monitors : List Nat
  /-- `DiscordSocket.connect` loop instances that have been started and have
  not yet returned, with the suspension point each is parked at. -/
  loops : List (Nat × LoopPhase)
  /-- `DiscordSocket.#backoffPolicy_`. -/
  backoff : BackoffPolicy
  /-- Observation log: every argument `DiscordSocket.write` has received. -/
  written : List OutMessage
  /-- Observation log: how often raw-socket `close()` has been called. -/
  closeCalls : Nat
  /-- Symbol generator: the next fresh token value. -/
  counter : Nat
deriving DecidableEq, Repr

/-- The state of a freshly constructed `DiscordConnection` (with its freshly
constructed `DiscordSocket`); the raw socket starts disconnected. -/
def initState : GatewayState where
  connect_ := false
  connecting_ := false
  connected_ := false
  heartbeatAckTime_ := none
  heartbeatIntervalMs_ := none
  heartbeatMonitorToken_ := none
  connectionToken_ := none
  disposed_ := false
  socketState := .disconnected
  monitors := []
  loops := []
  backoff := BackoffPolicy.init
  written := []
  closeCalls := 0
  counter := 0

/-- `const kMinimumHeartbeatMonitorMs = 10 * 1000;` -/
def kMinimumHeartbeatMonitorMs : Nat := 10 * 1000

namespace DiscordConnection

/-- `static kOpcodeDispatch = 0;` -/
def kOpcodeDispatch : Nat := 0
/-- `static kOpcodeHeartbeat = 1;` -/
def kOpcodeHeartbeat : Nat := 1
/-- `static kOpcodeHeartbeatAck = 11;` -/
def kOpcodeHeartbeatAck : Nat := 11
/-- `static kOpcodeHello = 10;` -/
def kOpcodeHello : Nat := 10
/-- `static kOpcodeIdentify = 2;` -/
def kOpcodeIdentify : Nat := 2
/-- `static kOpcodeInvalidSession = 9;` -/
def kOpcodeInvalidSession : Nat := 9
/-- `static kOpcodeReconnect = 7;` -/
def kOpcodeReconnect : Nat := 7
/-- `static kOpcodeResume = 6;` -/
def kOpcodeResume : Nat := 6

end DiscordConnection

namespace DiscordSocket

/-- `DiscordSocket.write`: the source body is empty (`async write(message)
{}`), so the call resolves to `undefined` (modelled as `none`) and performs
no transport I/O; the argument is recorded in the `written` observation
log. -/
def write (s : GatewayState) (message : OutMessage) : Option Bool × GatewayState :=
  (none, { s with written := s.written ++ [message] })

/-- `DiscordSocket.disconnect`: returns early when disposed; calls raw
`close()` when the socket is connecting/connected/disconnecting; finally
clears `#connectionToken_`. -/
def disconnect (s : GatewayState) : GatewayState :=
  if s.disposed_ then s
  else
    let s1 :=
      match s.socketState with
      | .connecting | .connected | .disconnecting =>
          { s with closeCalls := s.closeCalls + 1 }
      | .disconnected => s
    { s1 with connectionToken_ := none }

/-- The synchronous prefix of `DiscordSocket.connect`: throws when a
connection token is already present; otherwise creates the fresh connection
token, stores it, and suspends in `await wait(backoff.getTimeToNextRequestMs())`
— the new loop instance is parked at `initialWait`.  The `Bool` result is
`true` when the call throws. -/
def connect (s : GatewayState) : Bool × GatewayState :=
  if s.connectionToken_ ≠ none then
    (true, s)
  else
    let connectionToken := s.counter
    (false, { s with
        connectionToken_ := some connectionToken
        counter := s.counter + 1
        loops := (connectionToken, LoopPhase.initialWait) :: s.loops })

/-- Remove the loop instance with the given token (the coroutine returns). -/
def removeLoop (l : List (Nat × LoopPhase)) (token : Nat) : List (Nat × LoopPhase) :=
  l.filter (fun p => p.1 ≠ token)

/-- Move the loop instance with the given token to a new suspension point. -/
def setLoopPhase (l : List (Nat × LoopPhase)) (token : Nat) (ph : LoopPhase) :
    List (Nat × LoopPhase) :=
  l.map (fun p => if p.1 = token then (token, ph) else p)

/-- The segment of `DiscordSocket.connect` that resumes after the initial
back-off wait: if the stored token no longer matches — or the socket has
been disposed — the policy is reset to idle and the loop returns; otherwise
the do/while body is entered and the loop proceeds to `await socket.open`. -/
def loopInitialResume (s : GatewayState) (token : Nat) : GatewayState :=
  if s.connectionToken_ ≠ some token ∨ s.disposed_ then
    { s with
        backoff := s.backoff.resetToIdle
        loops := removeLoop s.loops token }
  else
    { s with loops := setLoopPhase s.loops token .attempting }

/-- The segment of `DiscordSocket.connect` that resumes when
`await socket.open(...)` returns with result `connected`: the result is
reported to the back-off policy; a superseded loop closes the raw socket
when it connected after disposal and returns; a successful current loop
clears the token and returns (delegate notification is a TODO in the
source); a failed current loop computes the next delay and suspends in
`await wait(delay)`. -/
def loopOpenResult (s : GatewayState) (token : Nat) (connected : Bool) : GatewayState :=
  let s1 := { s with
      backoff := if connected then s.backoff.markRequestSuccessful
                 else s.backoff.markRequestFailed }
  if s1.connectionToken_ ≠ some token then
    let s2 := if connected ∧ s1.disposed_ then
        { s1 with closeCalls := s1.closeCalls + 1 }
      else s1
    { s2 with loops := removeLoop s2.loops token }
  else if connected then
    { s1 with
        connectionToken_ := none
        loops := removeLoop s1.loops token }
  else
    { s1 with loops := setLoopPhase s1.loops token .retryWait }

/-- The segment of `DiscordSocket.connect` that resumes after the retry
delay: a token mismatch resets the policy to idle and the do/while condition
then terminates the loop; disposal also terminates it; otherwise the body is
re-entered and the loop proceeds to the next `await socket.open`. -/
def loopRetryResume (s : GatewayState) (token : Nat) : GatewayState :=
  if s.connectionToken_ ≠ some token then
    { s with
        backoff := s.backoff.resetToIdle
        loops := removeLoop s.loops token }
  else if s.disposed_ then
    { s with loops := removeLoop s.loops token }
  else
    { s with loops := setLoopPhase s.loops token .attempting }

/-- `DiscordSocket.dispose`: sets `#disposed_`. -/
def dispose (s : GatewayState) : GatewayState :=
  { s with disposed_ := true }

end DiscordSocket

namespace DiscordConnection

/-- `DiscordConnection.sendOpcodeMessage({ op, d = {}, s = null, t = null })`:
returns `false` when the connection is not established; otherwise forwards
the envelope `{ op, d, s, t }` to `DiscordSocket.write` and returns its
result (`undefined`, modelled as `none`). -/
def sendOpcodeMessage (st : GatewayState) (a : OutMessage) : Option Bool × GatewayState :=
  if st.connected_ = false then
    (some false, st)
  else
    DiscordSocket.write st { op := a.op, d := a.d, s := a.s, t := a.t }

/-- The guard condition of `heartbeatMonitor`:
`!this.#heartbeatIntervalMs_ || this.#heartbeatIntervalMs_ < kMinimumHeartbeatMonitorMs`
(a nullish or zero interval is falsy). -/
def intervalTooLow (st : GatewayState) : Bool :=
  match st.heartbeatIntervalMs_ with
  | none => true
  | some v => v == 0 || v < kMinimumHeartbeatMonitorMs

/-- The synchronous prefix of `DiscordConnection.heartbeatMonitor`: a fresh
token is generated and stored unconditionally; then the sanity check throws
(result `true`) when the interval is missing or below the floor; otherwise
the monitor loop starts, suspending in its first `await wait(...)`. -/
def heartbeatMonitor (st : GatewayState) : Bool × GatewayState :=
  let heartbeatMonitorToken := st.counter
  let st1 := { st with
      heartbeatMonitorToken_ := some heartbeatMonitorToken
      counter := st.counter + 1 }
  if intervalTooLow st1 then
    (true, st1)
  else
    (false, { st1 with monitors := heartbeatMonitorToken :: st1.monitors })

/-- One wake-up of a `heartbeatMonitor` loop instance: after
`await wait(interval)` the loop compares its captured token with the stored
one — on mismatch it returns silently; otherwise it sends a
`{ op: kOpcodeHeartbeat }` message and loops (suspending in the next
wait). -/
def monitorWakeStep (st : GatewayState) (token : Nat) : GatewayState :=
  if st.heartbeatMonitorToken_ ≠ some token then
    { st with monitors := st.monitors.filter (fun t => t ≠ token) }
  else
    (sendOpcodeMessage st
      { op := kOpcodeHeartbeat, d := .empty, s := none, t := none }).2

/-- `DiscordConnection.identify`: both opcode paths are TODOs in the source;
no effect. -/
def identify (st : GatewayState) : GatewayState := st

/-- `DiscordConnection.onMessage`: dispatch on `message.op`.  Heartbeat
requests are answered with an ack; acks record the monotonic receipt time
`now`; Hello records the peer interval (defaulting a nullish value to 41250,
after merely logging when the property is absent) and starts the heartbeat
monitor and identification; Dispatch, Reconnect, InvalidSession and all
unknown opcodes are only logged.  A rejection of the un-awaited
`heartbeatMonitor()` promise does not propagate into `onMessage`. -/
def onMessage (st : GatewayState) (message : InboundMessage) (now : Nat) : GatewayState :=
  if message.op = kOpcodeHeartbeat then
    (sendOpcodeMessage st
      { op := kOpcodeHeartbeatAck, d := .empty, s := none, t := none }).2
  else if message.op = kOpcodeHeartbeatAck then
    { st with heartbeatAckTime_ := some now }
  else if message.op = kOpcodeHello then
    let st1 := { st with
        heartbeatIntervalMs_ := some (message.d.heartbeatInterval.getD 41250) }
    identify (heartbeatMonitor st1).2
  else
    st

/-- `DiscordConnection.internalConnect`: sets `#connecting_` and delegates to
`DiscordSocket.connect`. -/
def internalConnect (st : GatewayState) : Bool × GatewayState :=
  DiscordSocket.connect { st with connecting_ := true }

/-- `DiscordConnection.connect`: sets the intent flag; when not already
connecting, delegates to `internalConnect` (otherwise resolves to
`undefined` at once). -/
def connect (st : GatewayState) : Bool × GatewayState :=
  let st1 := { st with connect_ := true }
  if st1.connecting_ then (false, st1)
  else internalConnect st1

/-- `DiscordConnection.disconnect`: clears the intent and connecting flags
and delegates to `DiscordSocket.disconnect`. -/
def disconnect (st : GatewayState) : GatewayState :=
  DiscordSocket.disconnect { st with connect_ := false, connecting_ := false }

/-- `DiscordConnection.onConnectionClosed`. -/
def onConnectionClosed (st : GatewayState) : GatewayState :=
  { st with connected_ := false, heartbeatMonitorToken_ := none }

/-- `DiscordConnection.onConnectionEstablished`. -/
def onConnectionEstablished (st : GatewayState) : GatewayState :=
  { st with
      connected_ := true
      connecting_ := false
      heartbeatIntervalMs_ := none
      heartbeatAckTime_ := none }

/-- `DiscordConnection.onConnectionFailed`: empty body. -/
def onConnectionFailed (st : GatewayState) : GatewayState := st

/-- `DiscordConnection.dispose`: clears the heartbeat token, disconnects the
socket, and disposes of it. -/
def dispose (st : GatewayState) : GatewayState :=
  DiscordSocket.dispose
    (DiscordSocket.disconnect { st with heartbeatMonitorToken_ := none })

end DiscordConnection

/-- External stimuli of the embedded system: application calls, delegate
callbacks (their wiring from `DiscordSocket` is a TODO in the source, so
they are modelled as externally triggered), inbound gateway messages (with
the monotonic receipt time), and timer wake-ups of the suspended coroutine
segments. -/
inductive Event
  | connectCall
  | disconnectCall
  | established
  | closed
  | inbound (message : InboundMessage) (now : Nat)
  | monitorWake (token : Nat)
  | loopResume (token : Nat)
  | loopOpen (token : Nat) (ok : Bool)
  | loopRetryResume (token : Nat)
deriving DecidableEq, Repr

/-- Dispatch one event to the corresponding source segment. -/
def step (s : GatewayState) : Event → GatewayState
  | .connectCall => (DiscordConnection.connect s).2
  | .disconnectCall => DiscordConnection.disconnect s
  | .established => DiscordConnection.onConnectionEstablished s
  | .closed => DiscordConnection.onConnectionClosed s
  | .inbound m now => DiscordConnection.onMessage s m now
  | .monitorWake t => DiscordConnection.monitorWakeStep s t
  | .loopResume t => DiscordSocket.loopInitialResume s t
  | .loopOpen t ok => DiscordSocket.loopOpenResult s t ok
  | .loopRetryResume t => DiscordSocket.loopRetryResume s t

/-- Whether an event can legitimately fire in a state: application calls are
always possible; the transport establishes only when the connection is not
already established; inbound messages only arrive on an established
connection; a timer wake-up requires the corresponding coroutine instance to
be alive and parked at that suspension point. -/
def wfStep (s : GatewayState) : Event → Bool
  | .connectCall => true
  | .disconnectCall => true
  | .established => !s.connected_
  | .closed => true
  | .inbound _ _ => s.connected_
  | .monitorWake t => decide (t ∈ s.monitors)
  | .loopResume t => decide ((t, LoopPhase.initialWait) ∈ s.loops)
  | .loopOpen t _ => decide ((t, LoopPhase.attempting) ∈ s.loops)
  | .loopRetryResume t => decide ((t, LoopPhase.retryWait) ∈ s.loops)

/-- A trace of events is well-formed from a state when every event can fire
in the state reached by its predecessors. -/
def wellFormed : GatewayState → List Event → Bool
  | _, [] => true
  | s, e :: tr => wfStep s e && wellFormed (step s e) tr

/-- Run a trace from a state. -/
def runFrom (s : GatewayState) (tr : List Event) : GatewayState :=
  tr.foldl step s

/-- Run a trace from the freshly constructed connection. -/
def run (tr : List Event) : GatewayState :=
  runFrom initState tr

/-- A trace of the freshly constructed connection is well-formed. -/
def wfTrace (tr : List Event) : Bool :=
  wellFormed initState tr

/-- Number of `{ op: kOpcodeHeartbeat }` envelopes in a write log. -/
def countHeartbeats (l : List OutMessage) : Nat :=
  l.countP (fun m => m.op == DiscordConnection.kOpcodeHeartbeat)

/-- Whether the stored heartbeat interval is a recorded value at or above the
safety floor. -/
def validInterval (s : GatewayState) : Bool :=
  match s.heartbeatIntervalMs_ with
  | none => false
  | some v => kMinimumHeartbeatMonitorMs ≤ v

/-- Whether some inbound Hello of the trace actually supplied a heartbeat
interval value (as opposed to the handler defaulting a missing one). -/
def helloProvidedInterval (tr : List Event) : Bool :=
  tr.any (fun e =>
    match e with
    | .inbound m _ => m.op == DiscordConnection.kOpcodeHello && m.d.heartbeatInterval.isSome
    | _ => false)

/-! ### The master invariant of well-formed reachable states -/

/-- Invariant of every state reachable from `initState` along a well-formed
trace: all issued tokens are below the symbol counter; live loop instances
and their ids are duplicate-free; the heartbeat token is cleared whenever
the connection is not established; a live monitor instance whose token is
current only exists while a recorded interval at or above the safety floor
is in place; and the socket is not disposed (no trace event disposes it). -/
structure GatewayInv (s : GatewayState) : Prop where
  mon_lt : ∀ t ∈ s.monitors, t < s.counter
  loop_lt : ∀ p ∈ s.loops, p.1 < s.counter
  sock_lt : ∀ t, s.connectionToken_ = some t → t < s.counter
  hb_lt : ∀ t, s.heartbeatMonitorToken_ = some t → t < s.counter
  mon_nodup : s.monitors.Nodup
  loop_nodup : (s.loops.map Prod.fst).Nodup
  hb_cleared : s.connected_ = false → s.heartbeatMonitorToken_ = none
  hb_valid : ∀ t, s.heartbeatMonitorToken_ = some t → t ∈ s.monitors → validInterval s = true
  not_disposed : s.disposed_ = false


/-! ### Helper lemmas about the loop bookkeeping -/

theorem mem_removeLoop {l : List (Nat × LoopPhase)} {token : Nat} {p : Nat × LoopPhase} :
    p ∈ DiscordSocket.removeLoop l token ↔ p ∈ l ∧ p.1 ≠ token := by
  simp [DiscordSocket.removeLoop, List.mem_filter]

theorem fst_setLoopPhase (l : List (Nat × LoopPhase)) (token : Nat) (ph : LoopPhase) :
    (DiscordSocket.setLoopPhase l token ph).map Prod.fst = l.map Prod.fst := by
  simp only [DiscordSocket.setLoopPhase, List.map_map]
  congr 1
  funext p
  by_cases h : p.1 = token <;> simp [h]

theorem mem_setLoopPhase {l : List (Nat × LoopPhase)} {token : Nat} {ph : LoopPhase}
    {p : Nat × LoopPhase} (h : p ∈ DiscordSocket.setLoopPhase l token ph) :
    (p = (token, ph) ∧ ∃ q, (token, q) ∈ l) ∨ (p.1 ≠ token ∧ p ∈ l) := by
  simp only [DiscordSocket.setLoopPhase, List.mem_map] at h
  obtain ⟨q, hq, hfq⟩ := h
  by_cases hqt : q.1 = token
  · left
    simp only [hqt, if_true] at hfq
    exact ⟨hfq.symm, q.2, by rwa [← hqt]⟩
  · right
    simp only [hqt, if_false] at hfq
    exact ⟨hfq ▸ hqt, hfq ▸ hq⟩

theorem mem_setLoopPhase_of_ne {l : List (Nat × LoopPhase)} {token : Nat} {ph : LoopPhase}
    {p : Nat × LoopPhase} (hp : p ∈ l) (hne : p.1 ≠ token) :
    p ∈ DiscordSocket.setLoopPhase l token ph := by
  simp only [DiscordSocket.setLoopPhase, List.mem_map]
  exact ⟨p, hp, by simp [hne]⟩

theorem removeLoop_map_fst_sublist (l : List (Nat × LoopPhase)) (token : Nat) :
    ((DiscordSocket.removeLoop l token).map Prod.fst).Sublist (l.map Prod.fst) :=
  (List.filter_sublist l).map Prod.fst

theorem gatewayInv_initState : GatewayInv initState := by
  constructor <;> simp [initState, validInterval]


/-! ### Characterizations of the step segments as explicit record updates -/

theorem connect_eq_of_connecting {s : GatewayState} (hc : s.connecting_ = true) :
    DiscordConnection.connect s = (false, { s with connect_ := true }) := by
  simp [DiscordConnection.connect, hc]

theorem connect_eq_of_token {s : GatewayState} {tk : Nat} (hc : s.connecting_ = false)
    (ht : s.connectionToken_ = some tk) :
    DiscordConnection.connect s = (true, { s with connect_ := true, connecting_ := true }) := by
  simp [DiscordConnection.connect, DiscordConnection.internalConnect, DiscordSocket.connect,
    hc, ht]

theorem connect_eq_of_idle {s : GatewayState} (hc : s.connecting_ = false)
    (ht : s.connectionToken_ = none) :
    DiscordConnection.connect s = (false, { s with
        connect_ := true
        connecting_ := true
        connectionToken_ := some s.counter
        counter := s.counter + 1
        loops := (s.counter, LoopPhase.initialWait) :: s.loops }) := by
  simp [DiscordConnection.connect, DiscordConnection.internalConnect, DiscordSocket.connect,
    hc, ht]

theorem disconnect_eq {s : GatewayState} (hd : s.disposed_ = false) :
    ∃ c, DiscordConnection.disconnect s = { s with
        connect_ := false
        connecting_ := false
        connectionToken_ := none
        closeCalls := c } := by
  cases hss : s.socketState with
  | connected => exact ⟨s.closeCalls + 1,
      by simp [DiscordConnection.disconnect, DiscordSocket.disconnect, hd, hss]⟩
  | connecting => exact ⟨s.closeCalls + 1,
      by simp [DiscordConnection.disconnect, DiscordSocket.disconnect, hd, hss]⟩
  | disconnecting => exact ⟨s.closeCalls + 1,
      by simp [DiscordConnection.disconnect, DiscordSocket.disconnect, hd, hss]⟩
  | disconnected => exact ⟨s.closeCalls,
      by simp [DiscordConnection.disconnect, DiscordSocket.disconnect, hd, hss]⟩

/-! ### Preservation of the master invariant by every well-formed step -/

theorem gatewayInv_sendOpcode {s : GatewayState} (h : GatewayInv s) (a : OutMessage) :
    GatewayInv (DiscordConnection.sendOpcodeMessage s a).2 := by
  cases hcon : s.connected_
  · rw [show (DiscordConnection.sendOpcodeMessage s a).2 = s by
      simp [DiscordConnection.sendOpcodeMessage, hcon]]
    exact h
  · rw [show (DiscordConnection.sendOpcodeMessage s a).2 =
        { s with written := s.written ++ [{ op := a.op, d := a.d, s := a.s, t := a.t }] } by
      simp [DiscordConnection.sendOpcodeMessage, DiscordSocket.write, hcon]]
    exact ⟨h.mon_lt, h.loop_lt, h.sock_lt, h.hb_lt, h.mon_nodup, h.loop_nodup,
      h.hb_cleared, h.hb_valid, h.not_disposed⟩

theorem gatewayInv_connect {s : GatewayState} (h : GatewayInv s) :
    GatewayInv (DiscordConnection.connect s).2 := by
  cases hc : s.connecting_
  · cases ht : s.connectionToken_ with
    | none =>
        rw [connect_eq_of_idle hc ht]
        dsimp only
        refine ⟨?_, ?_, ?_, ?_, h.mon_nodup, ?_, h.hb_cleared, h.hb_valid, h.not_disposed⟩
        · exact fun t hm => Nat.lt_succ_of_lt (h.mon_lt t hm)
        · intro p hp
          rcases List.mem_cons.mp hp with rfl | hp
          · exact Nat.lt_succ_self _
          · exact Nat.lt_succ_of_lt (h.loop_lt p hp)
        · intro t hts
          have hct : s.counter = t := by simpa using hts
          show t < s.counter + 1
          omega
        · exact fun t hts => Nat.lt_succ_of_lt (h.hb_lt t hts)
        · simp only [List.map_cons, List.nodup_cons]
          refine ⟨fun hmem => ?_, h.loop_nodup⟩
          rcases List.mem_map.mp hmem with ⟨p, hp, hfp⟩
          exact absurd (hfp ▸ h.loop_lt p hp) (lt_irrefl _)
    | some tk =>
        rw [connect_eq_of_token hc ht]
        exact ⟨h.mon_lt, h.loop_lt, h.sock_lt, h.hb_lt, h.mon_nodup, h.loop_nodup,
          h.hb_cleared, h.hb_valid, h.not_disposed⟩
  · rw [connect_eq_of_connecting hc]
    exact ⟨h.mon_lt, h.loop_lt, h.sock_lt, h.hb_lt, h.mon_nodup, h.loop_nodup,
      h.hb_cleared, h.hb_valid, h.not_disposed⟩

theorem gatewayInv_disconnect {s : GatewayState} (h : GatewayInv s) :
    GatewayInv (DiscordConnection.disconnect s) := by
  obtain ⟨c, hc⟩ := disconnect_eq h.not_disposed
  rw [hc]
  refine ⟨h.mon_lt, h.loop_lt, ?_, h.hb_lt, h.mon_nodup, h.loop_nodup,
    h.hb_cleared, h.hb_valid, h.not_disposed⟩
  intro t hts
  simp at hts

theorem gatewayInv_established {s : GatewayState} (h : GatewayInv s)
    (hcon : s.connected_ = false) :
    GatewayInv (DiscordConnection.onConnectionEstablished s) := by
  have htok : s.heartbeatMonitorToken_ = none := h.hb_cleared hcon
  refine ⟨h.mon_lt, h.loop_lt, h.sock_lt, h.hb_lt, h.mon_nodup, h.loop_nodup, ?_, ?_,
    h.not_disposed⟩
  · intro hff
    exact absurd hff (by simp [DiscordConnection.onConnectionEstablished])
  · intro t hts
    rw [show (DiscordConnection.onConnectionEstablished s).heartbeatMonitorToken_ =
      s.heartbeatMonitorToken_ from rfl, htok] at hts
    cases hts

theorem gatewayInv_closed {s : GatewayState} (h : GatewayInv s) :
    GatewayInv (DiscordConnection.onConnectionClosed s) := by
  refine ⟨h.mon_lt, h.loop_lt, h.sock_lt, ?_, h.mon_nodup, h.loop_nodup, fun _ => rfl, ?_,
    h.not_disposed⟩
  · intro t hts
    cases hts
  · intro t hts
    cases hts

theorem removeLoop_fst_nodup {l : List (Nat × LoopPhase)} {token : Nat}
    (h : (l.map Prod.fst).Nodup) :
    ((DiscordSocket.removeLoop l token).map Prod.fst).Nodup :=
  h.sublist (removeLoop_map_fst_sublist l token)

theorem heartbeatMonitor_eq (s : GatewayState) :
    DiscordConnection.heartbeatMonitor s =
      if DiscordConnection.intervalTooLow s then
        (true, { s with heartbeatMonitorToken_ := some s.counter, counter := s.counter + 1 })
      else
        (false, { s with
            heartbeatMonitorToken_ := some s.counter
            counter := s.counter + 1
            monitors := s.counter :: s.monitors }) := rfl

theorem gatewayInv_hello {s : GatewayState} (h : GatewayInv s) (hcon : s.connected_ = true)
    (v : Nat) :
    GatewayInv (DiscordConnection.heartbeatMonitor { s with heartbeatIntervalMs_ := some v }).2 := by
  rw [heartbeatMonitor_eq]
  by_cases hlow :
      DiscordConnection.intervalTooLow { s with heartbeatIntervalMs_ := some v } = true
  · rw [if_pos hlow]
    refine ⟨fun t ht => Nat.lt_succ_of_lt (h.mon_lt t ht),
      fun p hp => Nat.lt_succ_of_lt (h.loop_lt p hp),
      fun t ht => Nat.lt_succ_of_lt (h.sock_lt t ht), ?_,
      h.mon_nodup, h.loop_nodup, ?_, ?_, h.not_disposed⟩
    · intro t hts
      have : s.counter = t := by simpa using hts
      show t < s.counter + 1
      omega
    · intro hff
      simp only [hcon] at hff
      cases hff
    · intro t hts htm
      have hct : s.counter = t := by simpa using hts
      exact absurd (h.mon_lt t htm) (by omega)
  · rw [if_neg hlow]
    have hv : kMinimumHeartbeatMonitorMs ≤ v := by
      simp only [DiscordConnection.intervalTooLow, Bool.or_eq_true, beq_iff_eq,
        decide_eq_true_eq, not_or] at hlow
      omega
    refine ⟨?_, fun p hp => Nat.lt_succ_of_lt (h.loop_lt p hp),
      fun t ht => Nat.lt_succ_of_lt (h.sock_lt t ht), ?_, ?_, h.loop_nodup, ?_, ?_,
      h.not_disposed⟩
    · intro t ht
      rcases List.mem_cons.mp ht with rfl | ht
      · exact Nat.lt_succ_self _
      · exact Nat.lt_succ_of_lt (h.mon_lt t ht)
    · intro t hts
      have : s.counter = t := by simpa using hts
      show t < s.counter + 1
      omega
    · exact List.nodup_cons.mpr ⟨fun hmem => absurd (h.mon_lt _ hmem) (lt_irrefl _),
        h.mon_nodup⟩
    · intro hff
      simp only [hcon] at hff
      cases hff
    · intro t hts htm
      simp [validInterval, hv]

theorem gatewayInv_onMessage {s : GatewayState} (h : GatewayInv s) (hcon : s.connected_ = true)
    (m : InboundMessage) (now : Nat) :
    GatewayInv (DiscordConnection.onMessage s m now) := by
  unfold DiscordConnection.onMessage
  by_cases h1 : m.op = DiscordConnection.kOpcodeHeartbeat
  · rw [if_pos h1]
    exact gatewayInv_sendOpcode h _
  · rw [if_neg h1]
    by_cases h2 : m.op = DiscordConnection.kOpcodeHeartbeatAck
    · rw [if_pos h2]
      exact ⟨h.mon_lt, h.loop_lt, h.sock_lt, h.hb_lt, h.mon_nodup, h.loop_nodup,
        h.hb_cleared, h.hb_valid, h.not_disposed⟩
    · rw [if_neg h2]
      by_cases h3 : m.op = DiscordConnection.kOpcodeHello
      · rw [if_pos h3]
        exact gatewayInv_hello h hcon _
      · rw [if_neg h3]
        exact h

theorem gatewayInv_monitorWake {s : GatewayState} (h : GatewayInv s) (token : Nat) :
    GatewayInv (DiscordConnection.monitorWakeStep s token) := by
  unfold DiscordConnection.monitorWakeStep
  split
  · refine ⟨?_, h.loop_lt, h.sock_lt, h.hb_lt, h.mon_nodup.filter _, h.loop_nodup,
      h.hb_cleared, ?_, h.not_disposed⟩
    · intro x hx
      exact h.mon_lt x (List.mem_of_mem_filter hx)
    · intro x hts hxm
      exact h.hb_valid x hts (List.mem_of_mem_filter hxm)
  · exact gatewayInv_sendOpcode h _

theorem gatewayInv_loopResume {s : GatewayState} (h : GatewayInv s) (token : Nat) :
    GatewayInv (DiscordSocket.loopInitialResume s token) := by
  unfold DiscordSocket.loopInitialResume
  split
  · exact ⟨h.mon_lt, fun p hp => h.loop_lt p (mem_removeLoop.mp hp).1, h.sock_lt, h.hb_lt,
      h.mon_nodup, removeLoop_fst_nodup h.loop_nodup, h.hb_cleared, h.hb_valid,
      h.not_disposed⟩
  · refine ⟨h.mon_lt, ?_, h.sock_lt, h.hb_lt, h.mon_nodup, ?_, h.hb_cleared, h.hb_valid,
      h.not_disposed⟩
    · intro p hp
      rcases mem_setLoopPhase hp with ⟨rfl, q, hq⟩ | ⟨_, hp2⟩
      · exact h.loop_lt (token, q) hq
      · exact h.loop_lt p hp2
    · rw [fst_setLoopPhase]
      exact h.loop_nodup

theorem gatewayInv_loopOpen {s : GatewayState} (h : GatewayInv s) (token : Nat) (ok : Bool) :
    GatewayInv (DiscordSocket.loopOpenResult s token ok) := by
  unfold DiscordSocket.loopOpenResult
  dsimp only
  split
  · split <;>
      exact ⟨h.mon_lt, fun p hp => h.loop_lt p (mem_removeLoop.mp hp).1, h.sock_lt, h.hb_lt,
        h.mon_nodup, removeLoop_fst_nodup h.loop_nodup, h.hb_cleared, h.hb_valid,
        h.not_disposed⟩
  · split
    · exact ⟨h.mon_lt, fun p hp => h.loop_lt p (mem_removeLoop.mp hp).1,
        fun x hx => absurd hx (by simp), h.hb_lt, h.mon_nodup,
        removeLoop_fst_nodup h.loop_nodup, h.hb_cleared, h.hb_valid, h.not_disposed⟩
    · refine ⟨h.mon_lt, ?_, h.sock_lt, h.hb_lt, h.mon_nodup, ?_, h.hb_cleared, h.hb_valid,
        h.not_disposed⟩
      · intro p hp
        rcases mem_setLoopPhase hp with ⟨rfl, q, hq⟩ | ⟨_, hp2⟩
        · exact h.loop_lt (token, q) hq
        · exact h.loop_lt p hp2
      · rw [fst_setLoopPhase]
        exact h.loop_nodup

theorem gatewayInv_loopRetryResume {s : GatewayState} (h : GatewayInv s) (token : Nat) :
    GatewayInv (DiscordSocket.loopRetryResume s token) := by
  unfold DiscordSocket.loopRetryResume
  split
  · exact ⟨h.mon_lt, fun p hp => h.loop_lt p (mem_removeLoop.mp hp).1, h.sock_lt, h.hb_lt,
      h.mon_nodup, removeLoop_fst_nodup h.loop_nodup, h.hb_cleared, h.hb_valid,
      h.not_disposed⟩
  · split
    · exact ⟨h.mon_lt, fun p hp => h.loop_lt p (mem_removeLoop.mp hp).1, h.sock_lt, h.hb_lt,
        h.mon_nodup, removeLoop_fst_nodup h.loop_nodup, h.hb_cleared, h.hb_valid,
        h.not_disposed⟩
    · refine ⟨h.mon_lt, ?_, h.sock_lt, h.hb_lt, h.mon_nodup, ?_, h.hb_cleared, h.hb_valid,
        h.not_disposed⟩
      · intro p hp
        rcases mem_setLoopPhase hp with ⟨rfl, q, hq⟩ | ⟨_, hp2⟩
        · exact h.loop_lt (token, q) hq
        · exact h.loop_lt p hp2
      · rw [fst_setLoopPhase]
        exact h.loop_nodup

theorem gatewayInv_step {s : GatewayState} {e : Event} (h : GatewayInv s)
    (hwf : wfStep s e = true) : GatewayInv (step s e) := by
  cases e with
  | connectCall => exact gatewayInv_connect h
  | disconnectCall => exact gatewayInv_disconnect h
  | established => exact gatewayInv_established h (by simpa [wfStep] using hwf)
  | closed => exact gatewayInv_closed h
  | inbound m now => exact gatewayInv_onMessage h (by simpa [wfStep] using hwf) m now
  | monitorWake t => exact gatewayInv_monitorWake h t
  | loopResume t => exact gatewayInv_loopResume h t
  | loopOpen t ok => exact gatewayInv_loopOpen h t ok
  | loopRetryResume t => exact gatewayInv_loopRetryResume h t

theorem wellFormed_cons {s : GatewayState} {e : Event} {tr : List Event}
    (h : wellFormed s (e :: tr) = true) :
    wfStep s e = true ∧ wellFormed (step s e) tr = true := by
  simpa [wellFormed, Bool.and_eq_true] using h

theorem gatewayInv_runFrom {s : GatewayState} {tr : List Event} (h : GatewayInv s)
    (hwf : wellFormed s tr = true) : GatewayInv (runFrom s tr) := by
  induction tr generalizing s with
  | nil => exact h
  | cons e tr ih =>
      obtain ⟨h1, h2⟩ := wellFormed_cons hwf
      exact ih (gatewayInv_step h h1) h2

theorem gatewayInv_run {tr : List Event} (hwf : wfTrace tr = true) : GatewayInv (run tr) :=
  gatewayInv_runFrom gatewayInv_initState hwf

/-! ### Trace utilities -/

theorem runFrom_append (s : GatewayState) (tr1 tr2 : List Event) :
    runFrom s (tr1 ++ tr2) = runFrom (runFrom s tr1) tr2 :=
  List.foldl_append step s tr1 tr2

theorem run_snoc (tr : List Event) (e : Event) :
    run (tr ++ [e]) = step (run tr) e :=
  runFrom_append initState tr [e]

theorem wellFormed_append (s : GatewayState) (tr1 tr2 : List Event) :
    wellFormed s (tr1 ++ tr2) =
      (wellFormed s tr1 && wellFormed (runFrom s tr1) tr2) := by
  induction tr1 generalizing s with
  | nil => simp [wellFormed, runFrom]
  | cons e tr ih =>
      show (wfStep s e && wellFormed (step s e) (tr ++ tr2)) = _
      rw [ih, ← Bool.and_assoc]
      rfl

/-! ### Claim C8: back-off delay is monotone in failures and resets on success -/

/-- C8: for every back-off state, a `markRequestFailed` never decreases the
computed delay, the delay stays capped at the maximum ceiling, and a
`markRequestSuccessful` returns the computed delay to the idle baseline
immediately.  Pointwise over all states, this covers every sequence of
failures followed by one success. -/
theorem c8_backoff_monotone_capped_resets (p : BackoffPolicy) :
    p.getTimeToNextRequestMs ≤ p.markRequestFailed.getTimeToNextRequestMs ∧
    p.markRequestFailed.getTimeToNextRequestMs ≤ BackoffPolicy.kMaximumDelayMs ∧
    p.markRequestSuccessful.getTimeToNextRequestMs = BackoffPolicy.kIdleDelayMs := by
  refine ⟨?_, ?_, rfl⟩
  · cases hp : p.failureCount with
    | zero =>
        simp [BackoffPolicy.getTimeToNextRequestMs, BackoffPolicy.markRequestFailed, hp,
          BackoffPolicy.kIdleDelayMs]
    | succ n =>
        have h1 : p.getTimeToNextRequestMs =
            min (BackoffPolicy.kInitialDelayMs * 2 ^ n) BackoffPolicy.kMaximumDelayMs := by
          simp [BackoffPolicy.getTimeToNextRequestMs, hp]
        have h2 : p.markRequestFailed.getTimeToNextRequestMs =
            min (BackoffPolicy.kInitialDelayMs * 2 ^ (n + 1)) BackoffPolicy.kMaximumDelayMs := by
          simp [BackoffPolicy.markRequestFailed, BackoffPolicy.getTimeToNextRequestMs, hp]
        rw [h1, h2]
        exact min_le_min
          (Nat.mul_le_mul_left _ (Nat.pow_le_pow_right (by norm_num) (Nat.le_succ n)))
          (le_refl _)
  · show BackoffPolicy.getTimeToNextRequestMs ⟨p.failureCount + 1⟩ ≤ _
    simp [BackoffPolicy.getTimeToNextRequestMs]

/-! ### Claim C9: a Heartbeat-Ack only updates the ack time -/

/-- C9: handling an inbound message with the HeartbeatAck opcode while the
connection is established updates `heartbeatAckTime_` to the monotonic
receipt time and changes no other field of the connection or socket state
(in particular not the connected flag or the socket state). -/
theorem c9_heartbeatAck_frame (s : GatewayState) (m : InboundMessage) (now : Nat)
    (_hcon : s.connected_ = true) (hop : m.op = DiscordConnection.kOpcodeHeartbeatAck) :
    DiscordConnection.onMessage s m now = { s with heartbeatAckTime_ := some now } := by
  unfold DiscordConnection.onMessage
  rw [if_neg (by rw [hop]; decide), if_pos hop]

/-- Witness for C9 at a concrete established state and message. -/
theorem c9_heartbeatAck_frame_witness :
    DiscordConnection.onMessage { initState with connected_ := true }
        ⟨11, ⟨false, none⟩⟩ 77 =
      { initState with connected_ := true, heartbeatAckTime_ := some 77 } :=
  c9_heartbeatAck_frame { initState with connected_ := true } ⟨11, ⟨false, none⟩⟩ 77
    rfl rfl

/-! ### Claim C7: Reconnect / InvalidSession are ignored by the code -/

/-- C7 counterexample: at a concrete established state, handling a Reconnect
or an InvalidSession message leaves the entire state unchanged — nothing is
forwarded anywhere, no write occurs and no reconnect cycle is triggered, so
the claim that these opcodes are forwarded and force a reconnect is false. -/
theorem c7_counterexample :
    DiscordConnection.onMessage { initState with connected_ := true }
        ⟨DiscordConnection.kOpcodeReconnect, ⟨false, none⟩⟩ 0 =
      { initState with connected_ := true } ∧
    DiscordConnection.onMessage { initState with connected_ := true }
        ⟨DiscordConnection.kOpcodeInvalidSession, ⟨false, none⟩⟩ 0 =
      { initState with connected_ := true } := by
  exact ⟨rfl, rfl⟩

/-- C7 amended: inbound Reconnect and InvalidSession messages fall into the
logged-only default branch of `onMessage` — the handler returns the state
unchanged (their forwarding / forced-reconnect handling is left as future
work in the source). -/
theorem c7_amended_reconnect_ignored (s : GatewayState) (m : InboundMessage) (now : Nat)
    (hop : m.op = DiscordConnection.kOpcodeReconnect ∨
      m.op = DiscordConnection.kOpcodeInvalidSession) :
    DiscordConnection.onMessage s m now = s := by
  unfold DiscordConnection.onMessage
  rcases hop with hop | hop <;>
    rw [if_neg (by rw [hop]; decide), if_neg (by rw [hop]; decide),
      if_neg (by rw [hop]; decide)]

/-- Witness for the amended C7 at a concrete state and message. -/
theorem c7_amended_reconnect_ignored_witness :
    DiscordConnection.onMessage initState ⟨7, ⟨false, none⟩⟩ 3 = initState :=
  c7_amended_reconnect_ignored initState ⟨7, ⟨false, none⟩⟩ 3 (Or.inl rfl)

/-! ### Claim C5: sendOpcodeMessage contract -/

/-- C5: when the connection is not established, `sendOpcodeMessage` returns
`false` (without throwing — it is a total function — and without handing
anything to the transport); when it is established, it forwards exactly the
structured envelope `{op, d, s, t}` built from its arguments to
`DiscordSocket.write` and returns the write result (`undefined`). -/
theorem c5_sendOpcodeMessage_contract (s : GatewayState) (a : OutMessage) :
    (s.connected_ = false →
      DiscordConnection.sendOpcodeMessage s a = (some false, s)) ∧
    (s.connected_ = true →
      DiscordConnection.sendOpcodeMessage s a =
        (none, { s with written := s.written ++ [⟨a.op, a.d, a.s, a.t⟩] })) := by
  constructor <;> intro hcon <;>
    simp [DiscordConnection.sendOpcodeMessage, DiscordSocket.write, hcon]

/-- Witness for C5 at a concrete disconnected and a concrete established
state. -/
theorem c5_sendOpcodeMessage_contract_witness :
    DiscordConnection.sendOpcodeMessage initState ⟨2, .payload 5, some 1, none⟩ =
      (some false, initState) ∧
    DiscordConnection.sendOpcodeMessage { initState with connected_ := true }
        ⟨2, .payload 5, some 1, none⟩ =
      (none,
        { initState with connected_ := true, written := [⟨2, .payload 5, some 1, none⟩] }) :=
  ⟨(c5_sendOpcodeMessage_contract initState ⟨2, .payload 5, some 1, none⟩).1 rfl,
   (c5_sendOpcodeMessage_contract { initState with connected_ := true }
      ⟨2, .payload 5, some 1, none⟩).2 rfl⟩

/-! ### Claim C6: usage errors at the transport interface -/

/-- C6 counterexample: at a concrete state with a connection attempt already
in progress (a stored connection token), calling `DiscordSocket.connect`
throws (the `Bool` component of the model is `true` exactly when the source
raises) instead of returning a failure value, so the claim that no such call
raises an exception is false. -/
theorem c6_counterexample :
    (DiscordSocket.connect { initState with connectionToken_ := some 0, counter := 1 }).1 =
      true := by
  decide

/-- C6 amended: starting a connect loop while one is already active throws an
`Error` (leaving the state untouched) rather than returning a failure value;
`DiscordSocket.write`, by contrast, never throws in any transport state — it
is an unimplemented stub that records its argument and resolves to
`undefined` regardless of the connection state (so a write while
disconnected does not raise, but neither does it return a meaningful
failure value). -/
theorem c6_amended_connect_throws_write_total (s : GatewayState) :
    (s.connectionToken_ ≠ none → DiscordSocket.connect s = (true, s)) ∧
    (∀ m, DiscordSocket.write s m = (none, { s with written := s.written ++ [m] })) := by
  constructor
  · intro h
    simp [DiscordSocket.connect, h]
  · intro m
    rfl

/-- Witness for the amended C6 at a concrete busy state. -/
theorem c6_amended_connect_throws_write_total_witness :
    DiscordSocket.connect { initState with connectionToken_ := some 0, counter := 1 } =
      (true, { initState with connectionToken_ := some 0, counter := 1 }) ∧
    DiscordSocket.write initState ⟨4, .empty, none, none⟩ =
      (none, { initState with written := [⟨4, .empty, none, none⟩] }) :=
  ⟨(c6_amended_connect_throws_write_total
      { initState with connectionToken_ := some 0, counter := 1 }).1 (by decide),
   (c6_amended_connect_throws_write_total initState).2 ⟨4, .empty, none, none⟩⟩

/-! ### Claim C1: what disconnect() does and does not invalidate -/

/-- C1 counterexample: run the freshly constructed connection through
`established`, a Hello carrying interval 41250 (which starts monitor token
0), and a `disconnect()` call.  After the disconnect the heartbeat monitor
token is still token 0 — not invalidated — and the previously scheduled
monitor wake-up then performs a further side effect: it hands a Heartbeat
envelope to the transport.  This refutes the claim that disconnect always
invalidates both tokens and that no stale heartbeat wake-up has any further
effect. -/
theorem c1_counterexample :
    wfTrace [.established, .inbound ⟨10, ⟨true, some 41250⟩⟩ 0, .disconnectCall,
      .monitorWake 0] = true ∧
    (run [.established, .inbound ⟨10, ⟨true, some 41250⟩⟩ 0,
      .disconnectCall]).heartbeatMonitorToken_ = some 0 ∧
    countHeartbeats (run [.established, .inbound ⟨10, ⟨true, some 41250⟩⟩ 0,
      .disconnectCall]).written = 0 ∧
    countHeartbeats (run [.established, .inbound ⟨10, ⟨true, some 41250⟩⟩ 0,
      .disconnectCall, .monitorWake 0]).written = 1 := by
  decide

/-- C1 amended: on a non-disposed socket, `disconnect()` invalidates the
connection token regardless of the transport state, but leaves the
heartbeat monitor token unchanged; the heartbeat monitor token is cleared
only by `onConnectionClosed()` or `dispose()`. -/
theorem c1_amended_disconnect_tokens (s : GatewayState) (hd : s.disposed_ = false) :
    (DiscordConnection.disconnect s).connectionToken_ = none ∧
    (DiscordConnection.disconnect s).heartbeatMonitorToken_ = s.heartbeatMonitorToken_ ∧
    (DiscordConnection.onConnectionClosed s).heartbeatMonitorToken_ = none ∧
    (DiscordConnection.dispose s).heartbeatMonitorToken_ = none := by
  obtain ⟨c, hc⟩ := disconnect_eq hd
  rw [hc]
  refine ⟨rfl, rfl, rfl, ?_⟩
  cases hss : s.socketState <;>
    simp [DiscordConnection.dispose, DiscordSocket.dispose, DiscordSocket.disconnect, hd, hss]

/-- Witness for the amended C1 at a concrete state holding both tokens, with
the raw socket connected. -/
theorem c1_amended_disconnect_tokens_witness :
    (DiscordConnection.disconnect
        { initState with
            socketState := .connected
            heartbeatMonitorToken_ := some 0
            connectionToken_ := some 1
            counter := 2 }).connectionToken_ = none ∧
    (DiscordConnection.disconnect
        { initState with
            socketState := .connected
            heartbeatMonitorToken_ := some 0
            connectionToken_ := some 1
            counter := 2 }).heartbeatMonitorToken_ = some 0 := by
  have h := c1_amended_disconnect_tokens
    { initState with
        socketState := .connected
        heartbeatMonitorToken_ := some 0
        connectionToken_ := some 1
        counter := 2 } (by decide)
  exact ⟨h.1, h.2.1⟩

/-! ### Frame lemmas: what each step segment leaves unchanged -/

theorem connect_frame (s : GatewayState) :
    (DiscordConnection.connect s).2.written = s.written ∧
    (DiscordConnection.connect s).2.monitors = s.monitors ∧
    (DiscordConnection.connect s).2.heartbeatMonitorToken_ = s.heartbeatMonitorToken_ ∧
    s.counter ≤ (DiscordConnection.connect s).2.counter := by
  cases hc : s.connecting_ with
  | true =>
      rw [connect_eq_of_connecting hc]
      exact ⟨rfl, rfl, rfl, le_refl _⟩
  | false =>
      cases ht : s.connectionToken_ with
      | none =>
          rw [connect_eq_of_idle hc ht]
          exact ⟨rfl, rfl, rfl, Nat.le_succ _⟩
      | some tk =>
          rw [connect_eq_of_token hc ht]
          exact ⟨rfl, rfl, rfl, le_refl _⟩

theorem disconnect_frame_fields (s : GatewayState) :
    (DiscordConnection.disconnect s).written = s.written ∧
    (DiscordConnection.disconnect s).monitors = s.monitors ∧
    (DiscordConnection.disconnect s).heartbeatMonitorToken_ = s.heartbeatMonitorToken_ ∧
    (DiscordConnection.disconnect s).counter = s.counter ∧
    (DiscordConnection.disconnect s).loops = s.loops := by
  unfold DiscordConnection.disconnect DiscordSocket.disconnect
  by_cases hd : s.disposed_
  · simp [hd]
  · cases hss : s.socketState <;> simp [hd, hss]

theorem sendOpcode_frame (s : GatewayState) (a : OutMessage) :
    (DiscordConnection.sendOpcodeMessage s a).2.monitors = s.monitors ∧
    (DiscordConnection.sendOpcodeMessage s a).2.heartbeatMonitorToken_ =
      s.heartbeatMonitorToken_ ∧
    (DiscordConnection.sendOpcodeMessage s a).2.counter = s.counter ∧
    (DiscordConnection.sendOpcodeMessage s a).2.loops = s.loops ∧
    (DiscordConnection.sendOpcodeMessage s a).2.connectionToken_ = s.connectionToken_ := by
  cases hcon : s.connected_ <;>
    simp [DiscordConnection.sendOpcodeMessage, DiscordSocket.write, hcon]

theorem onMessage_frame (s : GatewayState) (m : InboundMessage) (now : Nat) :
    (DiscordConnection.onMessage s m now).loops = s.loops ∧
    (DiscordConnection.onMessage s m now).connectionToken_ = s.connectionToken_ ∧
    s.counter ≤ (DiscordConnection.onMessage s m now).counter := by
  unfold DiscordConnection.onMessage
  by_cases h1 : m.op = DiscordConnection.kOpcodeHeartbeat
  · rw [if_pos h1]
    obtain ⟨_, _, hcnt, hlp, htk⟩ := sendOpcode_frame s
      { op := DiscordConnection.kOpcodeHeartbeatAck, d := .empty, s := none, t := none }
    exact ⟨hlp, htk, le_of_eq hcnt.symm⟩
  · rw [if_neg h1]
    by_cases h2 : m.op = DiscordConnection.kOpcodeHeartbeatAck
    · rw [if_pos h2]
      exact ⟨rfl, rfl, le_refl _⟩
    · rw [if_neg h2]
      by_cases h3 : m.op = DiscordConnection.kOpcodeHello
      · rw [if_pos h3]
        dsimp only
        rw [DiscordConnection.identify, heartbeatMonitor_eq]
        split <;> exact ⟨rfl, rfl, Nat.le_succ _⟩
      · rw [if_neg h3]
        exact ⟨rfl, rfl, le_refl _⟩

theorem onMessage_hbToken (s : GatewayState) (m : InboundMessage) (now : Nat) :
    (DiscordConnection.onMessage s m now).heartbeatMonitorToken_ =
      s.heartbeatMonitorToken_ ∨
    (DiscordConnection.onMessage s m now).heartbeatMonitorToken_ = some s.counter := by
  unfold DiscordConnection.onMessage
  by_cases h1 : m.op = DiscordConnection.kOpcodeHeartbeat
  · rw [if_pos h1]
    exact Or.inl (sendOpcode_frame s _).2.1
  · rw [if_neg h1]
    by_cases h2 : m.op = DiscordConnection.kOpcodeHeartbeatAck
    · rw [if_pos h2]
      exact Or.inl rfl
    · rw [if_neg h2]
      by_cases h3 : m.op = DiscordConnection.kOpcodeHello
      · rw [if_pos h3]
        dsimp only
        rw [DiscordConnection.identify, heartbeatMonitor_eq]
        split <;> exact Or.inr rfl
      · rw [if_neg h3]
        exact Or.inl rfl

theorem monitorWake_frame (s : GatewayState) (token : Nat) :
    (DiscordConnection.monitorWakeStep s token).heartbeatMonitorToken_ =
      s.heartbeatMonitorToken_ ∧
    (DiscordConnection.monitorWakeStep s token).counter = s.counter ∧
    (DiscordConnection.monitorWakeStep s token).loops = s.loops ∧
    (DiscordConnection.monitorWakeStep s token).connectionToken_ = s.connectionToken_ := by
  unfold DiscordConnection.monitorWakeStep
  split
  · exact ⟨rfl, rfl, rfl, rfl⟩
  · obtain ⟨_, htk, hcnt, hlp, hct⟩ := sendOpcode_frame s
      { op := DiscordConnection.kOpcodeHeartbeat, d := .empty, s := none, t := none }
    exact ⟨htk, hcnt, hlp, hct⟩

theorem loopResume_frame (s : GatewayState) (token : Nat) :
    (DiscordSocket.loopInitialResume s token).written = s.written ∧
    (DiscordSocket.loopInitialResume s token).monitors = s.monitors ∧
    (DiscordSocket.loopInitialResume s token).heartbeatMonitorToken_ =
      s.heartbeatMonitorToken_ ∧
    (DiscordSocket.loopInitialResume s token).counter = s.counter ∧
    (DiscordSocket.loopInitialResume s token).connectionToken_ = s.connectionToken_ := by
  unfold DiscordSocket.loopInitialResume
  split <;> exact ⟨rfl, rfl, rfl, rfl, rfl⟩

theorem loopOpen_frame (s : GatewayState) (token : Nat) (ok : Bool) :
    (DiscordSocket.loopOpenResult s token ok).written = s.written ∧
    (DiscordSocket.loopOpenResult s token ok).monitors = s.monitors ∧
    (DiscordSocket.loopOpenResult s token ok).heartbeatMonitorToken_ =
      s.heartbeatMonitorToken_ ∧
    (DiscordSocket.loopOpenResult s token ok).counter = s.counter := by
  unfold DiscordSocket.loopOpenResult
  dsimp only
  split
  · split <;> exact ⟨rfl, rfl, rfl, rfl⟩
  · split <;> exact ⟨rfl, rfl, rfl, rfl⟩

theorem loopRetryResume_frame (s : GatewayState) (token : Nat) :
    (DiscordSocket.loopRetryResume s token).written = s.written ∧
    (DiscordSocket.loopRetryResume s token).monitors = s.monitors ∧
    (DiscordSocket.loopRetryResume s token).heartbeatMonitorToken_ =
      s.heartbeatMonitorToken_ ∧
    (DiscordSocket.loopRetryResume s token).counter = s.counter := by
  unfold DiscordSocket.loopRetryResume
  split
  · exact ⟨rfl, rfl, rfl, rfl⟩
  · split <;> exact ⟨rfl, rfl, rfl, rfl⟩

/-! ### Claim C2: what has been recorded when a Heartbeat is sent -/

theorem countHeartbeats_append (l : List OutMessage) (x : OutMessage) :
    countHeartbeats (l ++ [x]) =
      countHeartbeats l + (if x.op = DiscordConnection.kOpcodeHeartbeat then 1 else 0) := by
  simp [countHeartbeats, List.countP_append, List.countP_cons]

theorem intervalTooLow_eq_not_validInterval (s : GatewayState) :
    DiscordConnection.intervalTooLow s = !(validInterval s) := by
  unfold DiscordConnection.intervalTooLow validInterval
  cases s.heartbeatIntervalMs_ with
  | none => rfl
  | some v =>
      rcases Nat.lt_or_ge v kMinimumHeartbeatMonitorMs with h | h
      · simp [h, Nat.not_le.mpr h]
      · have hv0 : v ≠ 0 := by
          have : 0 < kMinimumHeartbeatMonitorMs := by norm_num [kMinimumHeartbeatMonitorMs]
          omega
        simp [h, Nat.not_lt.mpr h, hv0]

theorem countHeartbeats_sendOpcode (s : GatewayState) (a : OutMessage)
    (ha : a.op ≠ DiscordConnection.kOpcodeHeartbeat) :
    countHeartbeats (DiscordConnection.sendOpcodeMessage s a).2.written =
      countHeartbeats s.written := by
  cases hcon : s.connected_
  · simp [DiscordConnection.sendOpcodeMessage, hcon]
  · simp [DiscordConnection.sendOpcodeMessage, DiscordSocket.write, hcon,
      countHeartbeats_append, ha]

/-- A single well-formed step that hands a new Heartbeat envelope to the
transport can only be a monitor wake-up whose token is current, and by the
master invariant the pre-state then has a recorded interval at or above the
safety floor. -/
theorem heartbeat_send_requires_validInterval {s : GatewayState} {e : Event}
    (h : GatewayInv s) (hwf : wfStep s e = true)
    (hchange : countHeartbeats (step s e).written ≠ countHeartbeats s.written) :
    validInterval s = true := by
  cases e with
  | connectCall =>
      exact absurd (congrArg countHeartbeats (connect_frame s).1) hchange
  | disconnectCall =>
      exact absurd (congrArg countHeartbeats (disconnect_frame_fields s).1) hchange
  | established => exact absurd rfl hchange
  | closed => exact absurd rfl hchange
  | inbound m now =>
      exfalso
      apply hchange
      show countHeartbeats (DiscordConnection.onMessage s m now).written = _
      unfold DiscordConnection.onMessage
      by_cases h1 : m.op = DiscordConnection.kOpcodeHeartbeat
      · rw [if_pos h1]
        exact countHeartbeats_sendOpcode s _ (by decide)
      · rw [if_neg h1]
        by_cases h2 : m.op = DiscordConnection.kOpcodeHeartbeatAck
        · rw [if_pos h2]
        · rw [if_neg h2]
          by_cases h3 : m.op = DiscordConnection.kOpcodeHello
          · rw [if_pos h3]
            dsimp only
            rw [DiscordConnection.identify, heartbeatMonitor_eq]
            split <;> rfl
          · rw [if_neg h3]
  | monitorWake t =>
      have htm : t ∈ s.monitors := by simpa [wfStep] using hwf
      by_cases htok : s.heartbeatMonitorToken_ ≠ some t
      · exfalso
        apply hchange
        show countHeartbeats (DiscordConnection.monitorWakeStep s t).written = _
        unfold DiscordConnection.monitorWakeStep
        rw [if_pos htok]
      · push_neg at htok
        exact h.hb_valid t htok htm
  | loopResume t =>
      exact absurd (congrArg countHeartbeats (loopResume_frame s t).1) hchange
  | loopOpen t ok =>
      exact absurd (congrArg countHeartbeats (loopOpen_frame s t ok).1) hchange
  | loopRetryResume t =>
      exact absurd (congrArg countHeartbeats (loopRetryResume_frame s t).1) hchange

/-- C2 counterexample: run the fresh connection through `established` and a
Hello whose `d` has no `heartbeat_interval` at all, then the monitor
wake-up.  The trace is well-formed; a Heartbeat envelope is handed to the
transport; yet no Hello of the trace ever provided an interval (the handler
silently defaulted the missing value to 41250, and `heartbeatMonitor` did
not fail fast: the recorded interval was not too low).  This refutes the
claim that heartbeats are never sent before a Hello-provided interval has
been recorded and that a missing interval fails fast instead of silently
defaulting. -/
theorem c2_counterexample :
    wfTrace [.established, .inbound ⟨10, ⟨false, none⟩⟩ 0, .monitorWake 0] = true ∧
    countHeartbeats (run [.established, .inbound ⟨10, ⟨false, none⟩⟩ 0,
      .monitorWake 0]).written = 1 ∧
    helloProvidedInterval [.established, .inbound ⟨10, ⟨false, none⟩⟩ 0,
      .monitorWake 0] = false ∧
    DiscordConnection.intervalTooLow (run [.established,
      .inbound ⟨10, ⟨false, none⟩⟩ 0]) = false := by
  decide

/-- C2 amended: along any well-formed trace, a step that hands a new
Heartbeat envelope to the transport happens only while the recorded
heartbeat interval is present and at or above the 10-second floor — but the
recorded interval may be the silent 41250 default substituted by the Hello
handler for a missing value rather than a Hello-provided one; and a
`heartbeatMonitor()` start finding a missing or below-floor recorded
interval throws. -/
theorem c2_amended_heartbeat_interval_guard :
    (∀ (tr : List Event) (e : Event), wfTrace (tr ++ [e]) = true →
      countHeartbeats (run (tr ++ [e])).written ≠ countHeartbeats (run tr).written →
      validInterval (run tr) = true) ∧
    (∀ s : GatewayState, validInterval s = false →
      (DiscordConnection.heartbeatMonitor s).1 = true) := by
  constructor
  · intro tr e hwf hchange
    rw [show wfTrace (tr ++ [e]) = wellFormed initState (tr ++ [e]) from rfl,
      wellFormed_append] at hwf
    have h12 : wellFormed initState tr = true ∧
        wellFormed (runFrom initState tr) [e] = true := by
      simpa [Bool.and_eq_true] using hwf
    obtain ⟨hwf1, hwf2⟩ := h12
    have hstep : wfStep (run tr) e = true := by
      simpa [wellFormed, Bool.and_eq_true] using hwf2
    have hinv := gatewayInv_run hwf1
    rw [run_snoc] at hchange
    exact heartbeat_send_requires_validInterval hinv hstep hchange
  · intro s hv
    rw [heartbeatMonitor_eq, if_pos (by rw [intervalTooLow_eq_not_validInterval, hv]; rfl)]

/-- Witness for the amended C2: the first part applied to the
counterexample trace of the silent default, the second part applied to the
fresh state (no interval recorded). -/
theorem c2_amended_heartbeat_interval_guard_witness :
    validInterval (run [.established, .inbound ⟨10, ⟨false, none⟩⟩ 0]) = true ∧
    (DiscordConnection.heartbeatMonitor initState).1 = true :=
  ⟨c2_amended_heartbeat_interval_guard.1 [.established, .inbound ⟨10, ⟨false, none⟩⟩ 0]
      (.monitorWake 0) (by decide) (by decide),
   c2_amended_heartbeat_interval_guard.2 initState (by decide)⟩

/-! ### Claim C3: at most one transport-connect loop without a disconnect -/

/-- Without an intervening `disconnect()`, every live connect-loop instance
carries the currently stored connection token; this is preserved by every
well-formed non-disconnect step. -/
theorem loops_hold_token_step {s : GatewayState} {e : Event} (hInv : GatewayInv s)
    (h3 : ∀ p ∈ s.loops, s.connectionToken_ = some p.1)
    (hwf : wfStep s e = true) (hne : e ≠ .disconnectCall) :
    ∀ p ∈ (step s e).loops, (step s e).connectionToken_ = some p.1 := by
  cases e with
  | connectCall =>
      cases hc : s.connecting_ with
      | true =>
          intro p hp
          rw [show step s .connectCall = (DiscordConnection.connect s).2 from rfl,
            connect_eq_of_connecting hc] at hp ⊢
          exact h3 p hp
      | false =>
          cases ht : s.connectionToken_ with
          | none =>
              intro p hp
              rw [show step s .connectCall = (DiscordConnection.connect s).2 from rfl,
                connect_eq_of_idle hc ht] at hp ⊢
              rcases List.mem_cons.mp hp with rfl | hp
              · rfl
              · exact absurd (ht ▸ h3 p hp) (by simp)
          | some tk =>
              intro p hp
              rw [show step s .connectCall = (DiscordConnection.connect s).2 from rfl,
                connect_eq_of_token hc ht] at hp ⊢
              exact h3 p hp
  | disconnectCall => exact absurd rfl hne
  | established => exact h3
  | closed => exact h3
  | inbound m now =>
      intro p hp
      obtain ⟨hlp, htk, _⟩ := onMessage_frame s m now
      rw [show step s (.inbound m now) = DiscordConnection.onMessage s m now from rfl] at hp ⊢
      rw [hlp] at hp
      rw [htk]
      exact h3 p hp
  | monitorWake t =>
      intro p hp
      obtain ⟨_, _, hlp, htk⟩ := monitorWake_frame s t
      rw [show step s (.monitorWake t) = DiscordConnection.monitorWakeStep s t from rfl] at hp ⊢
      rw [hlp] at hp
      rw [htk]
      exact h3 p hp
  | loopResume t =>
      have hmem : (t, LoopPhase.initialWait) ∈ s.loops := by simpa [wfStep] using hwf
      have htok : s.connectionToken_ = some t := h3 _ hmem
      intro p hp
      rw [show step s (.loopResume t) = DiscordSocket.loopInitialResume s t from rfl] at hp ⊢
      unfold DiscordSocket.loopInitialResume at hp ⊢
      rw [if_neg (by simp [htok, hInv.not_disposed])] at hp ⊢
      rcases mem_setLoopPhase hp with ⟨rfl, q, hq⟩ | ⟨_, hp2⟩
      · exact htok
      · exact h3 p hp2
  | loopOpen t ok =>
      have hmem : (t, LoopPhase.attempting) ∈ s.loops := by simpa [wfStep] using hwf
      have htok : s.connectionToken_ = some t := h3 _ hmem
      intro p hp
      rw [show step s (.loopOpen t ok) = DiscordSocket.loopOpenResult s t ok from rfl] at hp ⊢
      unfold DiscordSocket.loopOpenResult at hp ⊢
      dsimp only at hp ⊢
      rw [if_neg (by simp [htok])] at hp ⊢
      cases ok with
      | true =>
          rw [if_pos rfl] at hp ⊢
          exfalso
          obtain ⟨hpl, hpt⟩ := mem_removeLoop.mp hp
          have := h3 p hpl
          rw [htok] at this
          exact hpt (Option.some.injEq _ _ ▸ this).symm
      | false =>
          rw [if_neg (by simp)] at hp ⊢
          rcases mem_setLoopPhase hp with ⟨rfl, q, hq⟩ | ⟨_, hp2⟩
          · exact htok
          · exact h3 p hp2
  | loopRetryResume t =>
      have hmem : (t, LoopPhase.retryWait) ∈ s.loops := by simpa [wfStep] using hwf
      have htok : s.connectionToken_ = some t := h3 _ hmem
      intro p hp
      rw [show step s (.loopRetryResume t) = DiscordSocket.loopRetryResume s t from rfl] at hp ⊢
      unfold DiscordSocket.loopRetryResume at hp ⊢
      rw [if_neg (by simp [htok]), if_neg (by simp [hInv.not_disposed])] at hp ⊢
      rcases mem_setLoopPhase hp with ⟨rfl, q, hq⟩ | ⟨_, hp2⟩
      · exact htok
      · exact h3 p hp2

theorem loops_hold_token_runFrom {s : GatewayState} {tr : List Event}
    (hInv : GatewayInv s) (h3 : ∀ p ∈ s.loops, s.connectionToken_ = some p.1)
    (hwf : wellFormed s tr = true) (hnd : Event.disconnectCall ∉ tr) :
    ∀ p ∈ (runFrom s tr).loops, (runFrom s tr).connectionToken_ = some p.1 := by
  induction tr generalizing s with
  | nil => exact h3
  | cons e tr ih =>
      obtain ⟨hwf1, hwf2⟩ := wellFormed_cons hwf
      have hne : e ≠ .disconnectCall := fun he => hnd (he ▸ List.mem_cons_self e tr)
      exact ih (gatewayInv_step hInv hwf1)
        (loops_hold_token_step hInv h3 hwf1 hne) hwf2
        (fun hmem => hnd (List.mem_cons_of_mem e hmem))

theorem length_le_one_of_same_token {l : List (Nat × LoopPhase)} {c : Option Nat}
    (hnodup : (l.map Prod.fst).Nodup) (h3 : ∀ p ∈ l, c = some p.1) : l.length ≤ 1 := by
  cases l with
  | nil => simp
  | cons p tail =>
      cases tail with
      | nil => simp
      | cons q rest =>
          exfalso
          have hp := h3 p (by simp)
          have hq := h3 q (by simp)
          have hpq : p.1 = q.1 := by
            rw [hp] at hq
            exact (Option.some.injEq _ _ ▸ hq)
          simp only [List.map_cons, List.nodup_cons, List.mem_cons] at hnodup
          exact hnodup.1 (Or.inl hpq)

/-- C3: along every well-formed trace containing no `disconnect()` call, at
most one transport-connect loop instance is ever alive; and a `connect()`
call finding the connecting flag already set only re-sets the intent flag —
it starts no loop, touches nothing else, and does not throw. -/
theorem c3_single_connect_loop :
    (∀ tr : List Event, wfTrace tr = true → Event.disconnectCall ∉ tr →
      (run tr).loops.length ≤ 1) ∧
    (∀ s : GatewayState, s.connecting_ = true →
      DiscordConnection.connect s = (false, { s with connect_ := true })) := by
  constructor
  · intro tr hwf hnd
    have hInv := gatewayInv_run hwf
    have h3 := loops_hold_token_runFrom gatewayInv_initState
      (by simp [initState]) hwf hnd
    exact length_le_one_of_same_token hInv.loop_nodup h3
  · exact fun s hc => connect_eq_of_connecting hc

/-- Witness for C3: a concrete well-formed trace with two `connect()` calls
and no disconnect keeps a single loop instance, and the duplicate call is
the no-op. -/
theorem c3_single_connect_loop_witness :
    (run [.connectCall, .connectCall, .loopResume 0]).loops.length ≤ 1 ∧
    DiscordConnection.connect { initState with connecting_ := true } =
      (false, { initState with connect_ := true, connecting_ := true }) :=
  ⟨c3_single_connect_loop.1 [.connectCall, .connectCall, .loopResume 0]
      (by decide) (by decide),
   c3_single_connect_loop.2 { initState with connecting_ := true } rfl⟩

/-! ### Claim C4: disconnect during the initial back-off wait prevents open -/

theorem mem_unique_of_fst_nodup {l : List (Nat × LoopPhase)}
    (h : (l.map Prod.fst).Nodup) {a : Nat} {x y : LoopPhase}
    (hx : (a, x) ∈ l) (hy : (a, y) ∈ l) : x = y := by
  induction l with
  | nil => cases hx
  | cons p tail ih =>
      simp only [List.map_cons, List.nodup_cons] at h
      rcases List.mem_cons.mp hx with rfl | hx2
      · rcases List.mem_cons.mp hy with heq | hy2
        · injection heq with h1 h2
          exact h2.symm
        · exact absurd (List.mem_map_of_mem Prod.fst hy2) h.1
      · rcases List.mem_cons.mp hy with rfl | hy2
        · exact absurd (List.mem_map_of_mem Prod.fst hx2) h.1
        · exact ih h.2 hx2 hy2

/-- After `loopOpenResult` for token `t`, no instance of loop `t` is parked
at the initial wait (it is either gone or parked at the retry wait). -/
theorem loopOpen_gone (s : GatewayState) (t : Nat) (b : Bool) :
    ∀ ph, (t, ph) ∈ (DiscordSocket.loopOpenResult s t b).loops →
      ph ≠ LoopPhase.initialWait := by
  unfold DiscordSocket.loopOpenResult
  dsimp only
  split
  · split <;>
      exact fun ph hph => absurd rfl (mem_removeLoop.mp hph).2
  · split
    · exact fun ph hph => absurd rfl (mem_removeLoop.mp hph).2
    · intro ph hph
      rcases mem_setLoopPhase hph with ⟨heq, _⟩ | ⟨hne, _⟩
      · injection heq with h1 h2
        rw [h2]
        simp
      · exact absurd rfl hne

/-- Once loop `t` is nowhere parked at the initial wait (and `t` is an
already-issued token), no step can park it there again. -/
theorem gone_step {s : GatewayState} {t : Nat} (e : Event) (h1 : t < s.counter)
    (hg : ∀ ph, (t, ph) ∈ s.loops → ph ≠ LoopPhase.initialWait) :
    t < (step s e).counter ∧
    (∀ ph, (t, ph) ∈ (step s e).loops → ph ≠ LoopPhase.initialWait) := by
  cases e with
  | connectCall =>
      cases hc : s.connecting_ with
      | true =>
          rw [show step s .connectCall = (DiscordConnection.connect s).2 from rfl,
            connect_eq_of_connecting hc]
          exact ⟨h1, hg⟩
      | false =>
          cases ht : s.connectionToken_ with
          | none =>
              rw [show step s .connectCall = (DiscordConnection.connect s).2 from rfl,
                connect_eq_of_idle hc ht]
              refine ⟨Nat.lt_succ_of_lt h1, ?_⟩
              intro ph hph
              rcases List.mem_cons.mp hph with heq | hph2
              · injection heq with ha hb
                exact absurd ha (Nat.ne_of_lt h1)
              · exact hg ph hph2
          | some tk =>
              rw [show step s .connectCall = (DiscordConnection.connect s).2 from rfl,
                connect_eq_of_token hc ht]
              exact ⟨h1, hg⟩
  | disconnectCall =>
      obtain ⟨_, _, _, hcnt, hlp⟩ := disconnect_frame_fields s
      rw [show step s .disconnectCall = DiscordConnection.disconnect s from rfl]
      rw [hcnt, hlp]
      exact ⟨h1, hg⟩
  | established => exact ⟨h1, hg⟩
  | closed => exact ⟨h1, hg⟩
  | inbound m now =>
      obtain ⟨hlp, _, hcnt⟩ := onMessage_frame s m now
      rw [show step s (.inbound m now) = DiscordConnection.onMessage s m now from rfl, hlp]
      exact ⟨lt_of_lt_of_le h1 hcnt, hg⟩
  | monitorWake tk =>
      obtain ⟨_, hcnt, hlp, _⟩ := monitorWake_frame s tk
      rw [show step s (.monitorWake tk) = DiscordConnection.monitorWakeStep s tk from rfl,
        hcnt, hlp]
      exact ⟨h1, hg⟩
  | loopResume tk =>
      rw [show step s (.loopResume tk) = DiscordSocket.loopInitialResume s tk from rfl]
      unfold DiscordSocket.loopInitialResume
      split
      · exact ⟨h1, fun ph hph => hg ph (mem_removeLoop.mp hph).1⟩
      · refine ⟨h1, ?_⟩
        intro ph hph
        rcases mem_setLoopPhase hph with ⟨heq, _⟩ | ⟨_, hph2⟩
        · injection heq with ha hb
          rw [hb]
          simp
        · exact hg ph hph2
  | loopOpen tk ok =>
      rw [show step s (.loopOpen tk ok) = DiscordSocket.loopOpenResult s tk ok from rfl]
      refine ⟨by rw [(loopOpen_frame s tk ok).2.2.2]; exact h1, ?_⟩
      unfold DiscordSocket.loopOpenResult
      dsimp only
      split
      · split <;>
          exact fun ph hph => hg ph (mem_removeLoop.mp hph).1
      · split
        · exact fun ph hph => hg ph (mem_removeLoop.mp hph).1
        · intro ph hph
          rcases mem_setLoopPhase hph with ⟨heq, _⟩ | ⟨_, hph2⟩
          · injection heq with ha hb
            rw [hb]
            simp
          · exact hg ph hph2
  | loopRetryResume tk =>
      rw [show step s (.loopRetryResume tk) = DiscordSocket.loopRetryResume s tk from rfl]
      unfold DiscordSocket.loopRetryResume
      split
      · exact ⟨h1, fun ph hph => hg ph (mem_removeLoop.mp hph).1⟩
      · split
        · exact ⟨h1, fun ph hph => hg ph (mem_removeLoop.mp hph).1⟩
        · refine ⟨h1, ?_⟩
          intro ph hph
          rcases mem_setLoopPhase hph with ⟨heq, _⟩ | ⟨_, hph2⟩
          · injection heq with ha hb
            rw [hb]
            simp
          · exact hg ph hph2

theorem gone_runFrom {s : GatewayState} {t : Nat} (tr : List Event) (h1 : t < s.counter)
    (hg : ∀ ph, (t, ph) ∈ s.loops → ph ≠ LoopPhase.initialWait) :
    t < (runFrom s tr).counter ∧
    (∀ ph, (t, ph) ∈ (runFrom s tr).loops → ph ≠ LoopPhase.initialWait) := by
  induction tr generalizing s with
  | nil => exact ⟨h1, hg⟩
  | cons e tr ih =>
      obtain ⟨h1s, hgs⟩ := gone_step e h1 hg
      exact ih h1s hgs

/-- A loop instance still parked at the initial wait has never executed an
`open()` attempt: no `loopOpen` event for its token occurs in any
well-formed trace that leaves it parked there. -/
theorem no_open_of_initialWait {tr : List Event} :
    ∀ {s : GatewayState}, GatewayInv s → wellFormed s tr = true →
      ∀ t b, Event.loopOpen t b ∈ tr →
        (t, LoopPhase.initialWait) ∈ (runFrom s tr).loops → False := by
  induction tr with
  | nil =>
      intro s _ _ t b hmem _
      cases hmem
  | cons e tr ih =>
      intro s hInv hwf t b hmem hfinal
      obtain ⟨hwf1, hwf2⟩ := wellFormed_cons hwf
      rcases List.mem_cons.mp hmem with heq | hmem2
      · subst heq
        have hatt : (t, LoopPhase.attempting) ∈ s.loops := by simpa [wfStep] using hwf1
        have hct : t < s.counter := hInv.loop_lt _ hatt
        have hC : t < (step s (.loopOpen t b)).counter := by
          rw [show step s (.loopOpen t b) = DiscordSocket.loopOpenResult s t b from rfl,
            (loopOpen_frame s t b).2.2.2]
          exact hct
        have hrest := gone_runFrom tr hC (loopOpen_gone s t b)
        exact hrest.2 LoopPhase.initialWait hfinal rfl
      · exact ih (gatewayInv_step hInv hwf1) hwf2 t b hmem2 hfinal

theorem disconnect_token (s : GatewayState) :
    (DiscordConnection.disconnect s).connectionToken_ = none ∨
    (DiscordConnection.disconnect s).connectionToken_ = s.connectionToken_ := by
  by_cases hd : s.disposed_
  · right
    unfold DiscordConnection.disconnect DiscordSocket.disconnect
    simp [hd]
  · left
    obtain ⟨c, hc⟩ := disconnect_eq (by simpa using hd)
    rw [hc]

/-- Once loop `L` is parked only at the initial wait, the stored connection
token no longer matches it, and `L` is below the symbol counter, every step
keeps it that way (the loop can only exit at its next resumption). -/
theorem p2_step {s : GatewayState} {L : Nat} (e : Event) (h1 : L < s.counter)
    (h2 : s.connectionToken_ ≠ some L)
    (h3 : ∀ ph, (L, ph) ∈ s.loops → ph = LoopPhase.initialWait) :
    L < (step s e).counter ∧ (step s e).connectionToken_ ≠ some L ∧
    (∀ ph, (L, ph) ∈ (step s e).loops → ph = LoopPhase.initialWait) := by
  cases e with
  | connectCall =>
      cases hc : s.connecting_ with
      | true =>
          rw [show step s .connectCall = (DiscordConnection.connect s).2 from rfl,
            connect_eq_of_connecting hc]
          exact ⟨h1, h2, h3⟩
      | false =>
          cases ht : s.connectionToken_ with
          | none =>
              rw [show step s .connectCall = (DiscordConnection.connect s).2 from rfl,
                connect_eq_of_idle hc ht]
              refine ⟨Nat.lt_succ_of_lt h1, ?_, ?_⟩
              · intro habs
                have : s.counter = L := by simpa using habs
                omega
              · intro ph hph
                rcases List.mem_cons.mp hph with heq | hph2
                · injection heq
                · exact h3 ph hph2
          | some tk =>
              rw [show step s .connectCall = (DiscordConnection.connect s).2 from rfl,
                connect_eq_of_token hc ht]
              exact ⟨h1, h2, h3⟩
  | disconnectCall =>
      obtain ⟨_, _, _, hcnt, hlp⟩ := disconnect_frame_fields s
      rw [show step s .disconnectCall = DiscordConnection.disconnect s from rfl]
      refine ⟨by rw [hcnt]; exact h1, ?_, by rw [hlp]; exact h3⟩
      rcases disconnect_token s with htk | htk <;> rw [htk]
      · simp
      · exact h2
  | established => exact ⟨h1, h2, h3⟩
  | closed => exact ⟨h1, h2, h3⟩
  | inbound m now =>
      obtain ⟨hlp, htk, hcnt⟩ := onMessage_frame s m now
      rw [show step s (.inbound m now) = DiscordConnection.onMessage s m now from rfl,
        hlp, htk]
      exact ⟨lt_of_lt_of_le h1 hcnt, h2, h3⟩
  | monitorWake tk =>
      obtain ⟨_, hcnt, hlp, htk⟩ := monitorWake_frame s tk
      rw [show step s (.monitorWake tk) = DiscordConnection.monitorWakeStep s tk from rfl,
        hcnt, hlp, htk]
      exact ⟨h1, h2, h3⟩
  | loopResume tk =>
      rw [show step s (.loopResume tk) = DiscordSocket.loopInitialResume s tk from rfl]
      unfold DiscordSocket.loopInitialResume
      split
      · exact ⟨h1, h2, fun ph hph => h3 ph (mem_removeLoop.mp hph).1⟩
      · next hcond =>
          refine ⟨h1, h2, ?_⟩
          intro ph hph
          rcases mem_setLoopPhase hph with ⟨heq, _⟩ | ⟨_, hph2⟩
          · injection heq with ha hb
            exfalso
            push_neg at hcond
            exact h2 (ha ▸ hcond.1)
          · exact h3 ph hph2
  | loopOpen tk ok =>
      rw [show step s (.loopOpen tk ok) = DiscordSocket.loopOpenResult s tk ok from rfl]
      unfold DiscordSocket.loopOpenResult
      dsimp only
      split
      · split <;>
          exact ⟨h1, h2, fun ph hph => h3 ph (mem_removeLoop.mp hph).1⟩
      · next hcond =>
          push_neg at hcond
          split
          · exact ⟨h1, by simp, fun ph hph => h3 ph (mem_removeLoop.mp hph).1⟩
          · refine ⟨h1, h2, ?_⟩
            intro ph hph
            rcases mem_setLoopPhase hph with ⟨heq, _⟩ | ⟨_, hph2⟩
            · injection heq with ha hb
              exact absurd (ha ▸ hcond) h2
            · exact h3 ph hph2
  | loopRetryResume tk =>
      rw [show step s (.loopRetryResume tk) = DiscordSocket.loopRetryResume s tk from rfl]
      unfold DiscordSocket.loopRetryResume
      split
      · exact ⟨h1, h2, fun ph hph => h3 ph (mem_removeLoop.mp hph).1⟩
      · next hcond =>
          push_neg at hcond
          split
          · exact ⟨h1, h2, fun ph hph => h3 ph (mem_removeLoop.mp hph).1⟩
          · refine ⟨h1, h2, ?_⟩
            intro ph hph
            rcases mem_setLoopPhase hph with ⟨heq, _⟩ | ⟨_, hph2⟩
            · injection heq with ha hb
              exact absurd (ha ▸ hcond) h2
            · exact h3 ph hph2

/-- Under the conditions of `p2_step`, no well-formed trace can contain an
`open()` attempt of loop `L`: its wake-up would require it to be parked at
an `open` suspension point, which it never reaches. -/
theorem p2_no_open {tr : List Event} :
    ∀ {s : GatewayState} {L : Nat} {b : Bool}, wellFormed s tr = true →
      L < s.counter → s.connectionToken_ ≠ some L →
      (∀ ph, (L, ph) ∈ s.loops → ph = LoopPhase.initialWait) →
      Event.loopOpen L b ∉ tr := by
  induction tr with
  | nil =>
      intro s L b _ _ _ _ hmem
      cases hmem
  | cons e tr ih =>
      intro s L b hwf h1 h2 h3 hmem
      obtain ⟨hwf1, hwf2⟩ := wellFormed_cons hwf
      rcases List.mem_cons.mp hmem with heq | hmem2
      · subst heq
        have hatt : (L, LoopPhase.attempting) ∈ s.loops := by simpa [wfStep] using hwf1
        have := h3 _ hatt
        cases this
      · obtain ⟨h1s, h2s, h3s⟩ := p2_step e h1 h2 h3
        exact ih hwf2 h1s h2s h3s hmem2

/-- C4: if `disconnect()` is called while a connect-loop instance is still
waiting on its initial back-off delay, then no `open()` call is ever made on
the transport for that superseded attempt — neither before the disconnect
(the loop never left the initial wait) nor at any point after it. -/
theorem c4_no_open_for_superseded_attempt (tr1 tr2 : List Event) (L : Nat) (b : Bool)
    (hwf : wfTrace (tr1 ++ Event.disconnectCall :: tr2) = true)
    (hinit : (L, LoopPhase.initialWait) ∈ (run tr1).loops) :
    Event.loopOpen L b ∉ tr1 ∧ Event.loopOpen L b ∉ tr2 := by
  rw [show wfTrace (tr1 ++ Event.disconnectCall :: tr2) =
    wellFormed initState (tr1 ++ Event.disconnectCall :: tr2) from rfl,
    wellFormed_append] at hwf
  have h12 : wellFormed initState tr1 = true ∧
      wellFormed (runFrom initState tr1) (Event.disconnectCall :: tr2) = true := by
    simpa [Bool.and_eq_true] using hwf
  obtain ⟨hwf1, hwf2⟩ := h12
  obtain ⟨_, hwf3⟩ := wellFormed_cons hwf2
  have hInv1 : GatewayInv (run tr1) := gatewayInv_run hwf1
  constructor
  · exact fun hmem => no_open_of_initialWait gatewayInv_initState hwf1 L b hmem hinit
  · have hct : L < (run tr1).counter := hInv1.loop_lt _ hinit
    have h1 : L < (DiscordConnection.disconnect (run tr1)).counter := by
      rw [(disconnect_frame_fields _).2.2.2.1]
      exact hct
    have h2 : (DiscordConnection.disconnect (run tr1)).connectionToken_ ≠ some L := by
      obtain ⟨c, hc⟩ := disconnect_eq hInv1.not_disposed
      rw [hc]
      simp
    have h3 : ∀ ph, (L, ph) ∈ (DiscordConnection.disconnect (run tr1)).loops →
        ph = LoopPhase.initialWait := by
      intro ph hph
      rw [(disconnect_frame_fields _).2.2.2.2] at hph
      exact mem_unique_of_fst_nodup hInv1.loop_nodup hph hinit
    exact p2_no_open hwf3 h1 h2 h3

/-- Witness for C4 at a concrete trace: `connect()` parks loop 0 in its
initial wait, `disconnect()` supersedes it, the loop then resumes once (and
exits); no `open()` attempt of loop 0 occurs on either side. -/
theorem c4_no_open_for_superseded_attempt_witness :
    Event.loopOpen 0 true ∉ ([.connectCall] : List Event) ∧
    Event.loopOpen 0 true ∉ ([.loopResume 0] : List Event) :=
  c4_no_open_for_superseded_attempt [.connectCall] [.loopResume 0] 0 true
    (by decide) (by decide)

/-! ### Claim C10: a heartbeatMonitor call supersedes every earlier monitor -/

/-- An already-superseded monitor token stays superseded: no step re-stores
an old token value (fresh tokens come from the monotone counter, and the
other writes clear the token). -/
theorem hbToken_stable_step {s : GatewayState} {t : Nat} (e : Event) (h1 : t < s.counter)
    (h2 : s.heartbeatMonitorToken_ ≠ some t) :
    t < (step s e).counter ∧ (step s e).heartbeatMonitorToken_ ≠ some t := by
  cases e with
  | connectCall =>
      obtain ⟨_, _, htk, hcnt⟩ := connect_frame s
      rw [show step s .connectCall = (DiscordConnection.connect s).2 from rfl, htk]
      exact ⟨lt_of_lt_of_le h1 hcnt, h2⟩
  | disconnectCall =>
      obtain ⟨_, _, htk, hcnt, _⟩ := disconnect_frame_fields s
      rw [show step s .disconnectCall = DiscordConnection.disconnect s from rfl, htk, hcnt]
      exact ⟨h1, h2⟩
  | established => exact ⟨h1, h2⟩
  | closed =>
      exact ⟨h1, by simp [step, DiscordConnection.onConnectionClosed]⟩
  | inbound m now =>
      obtain ⟨_, _, hcnt⟩ := onMessage_frame s m now
      refine ⟨lt_of_lt_of_le h1 hcnt, ?_⟩
      rcases onMessage_hbToken s m now with htk | htk <;>
        rw [show step s (.inbound m now) = DiscordConnection.onMessage s m now from rfl, htk]
      · exact h2
      · intro habs
        have : s.counter = t := by simpa using habs
        omega
  | monitorWake tk =>
      obtain ⟨htk, hcnt, _, _⟩ := monitorWake_frame s tk
      rw [show step s (.monitorWake tk) = DiscordConnection.monitorWakeStep s tk from rfl,
        htk, hcnt]
      exact ⟨h1, h2⟩
  | loopResume tk =>
      obtain ⟨_, _, htk, hcnt, _⟩ := loopResume_frame s tk
      rw [show step s (.loopResume tk) = DiscordSocket.loopInitialResume s tk from rfl,
        htk, hcnt]
      exact ⟨h1, h2⟩
  | loopOpen tk ok =>
      obtain ⟨_, _, htk, hcnt⟩ := loopOpen_frame s tk ok
      rw [show step s (.loopOpen tk ok) = DiscordSocket.loopOpenResult s tk ok from rfl,
        htk, hcnt]
      exact ⟨h1, h2⟩
  | loopRetryResume tk =>
      obtain ⟨_, _, htk, hcnt⟩ := loopRetryResume_frame s tk
      rw [show step s (.loopRetryResume tk) = DiscordSocket.loopRetryResume s tk from rfl,
        htk, hcnt]
      exact ⟨h1, h2⟩

theorem hbToken_stable_runFrom {s : GatewayState} {t : Nat} (u : List Event)
    (h1 : t < s.counter) (h2 : s.heartbeatMonitorToken_ ≠ some t) :
    t < (runFrom s u).counter ∧ (runFrom s u).heartbeatMonitorToken_ ≠ some t := by
  induction u generalizing s with
  | nil => exact ⟨h1, h2⟩
  | cons e u ih =>
      obtain ⟨h1s, h2s⟩ := hbToken_stable_step e h1 h2
      exact ih h1s h2s

/-- C10: every `heartbeatMonitor()` call stores the fresh token before the
interval floor is validated — also when it throws, and it throws exactly
when the recorded interval is missing or below the floor; the fresh token
differs from every previously started monitor token.  Consequently, once a
monitor token is superseded — no matter what events occur in between — its
wake-up hands nothing to the transport and the monitor instance exits. -/
theorem c10_monitor_token_supersession :
    (∀ s : GatewayState,
      (DiscordConnection.heartbeatMonitor s).2.heartbeatMonitorToken_ = some s.counter ∧
      (DiscordConnection.heartbeatMonitor s).1 = DiscordConnection.intervalTooLow s ∧
      (∀ t ∈ s.monitors, t < s.counter →
        (DiscordConnection.heartbeatMonitor s).2.heartbeatMonitorToken_ ≠ some t ∧
        t < (DiscordConnection.heartbeatMonitor s).2.counter)) ∧
    (∀ (s : GatewayState) (u : List Event) (t : Nat),
      t < s.counter → s.heartbeatMonitorToken_ ≠ some t →
      (DiscordConnection.monitorWakeStep (runFrom s u) t).written = (runFrom s u).written ∧
      t ∉ (DiscordConnection.monitorWakeStep (runFrom s u) t).monitors) := by
  constructor
  · intro s
    rw [heartbeatMonitor_eq]
    refine ⟨?_, ?_, ?_⟩
    · split <;> rfl
    · split <;> simp_all
    · intro t _ hct
      constructor
      · split <;>
          · intro habs
            have : s.counter = t := by simpa using habs
            omega
      · split <;> exact Nat.lt_succ_of_lt hct
  · intro s u t h1 h2
    obtain ⟨_, h2u⟩ := hbToken_stable_runFrom u h1 h2
    unfold DiscordConnection.monitorWakeStep
    rw [if_pos h2u]
    refine ⟨rfl, ?_⟩
    intro habs
    simp only [List.mem_filter, decide_eq_true_eq] at habs
    exact habs.2 rfl

/-- Witness for C10: the fresh-token part applied to the initial state (with
no interval recorded, so the call throws after storing the token), and the
supersession part applied to a concrete state with a live but superseded
monitor 0 across an empty interleaving. -/
theorem c10_monitor_token_supersession_witness :
    (DiscordConnection.heartbeatMonitor initState).2.heartbeatMonitorToken_ = some 0 ∧
    (DiscordConnection.heartbeatMonitor initState).1 = true ∧
    (DiscordConnection.monitorWakeStep
      { initState with monitors := [0], counter := 1 } 0).written = [] ∧
    0 ∉ (DiscordConnection.monitorWakeStep
      { initState with monitors := [0], counter := 1 } 0).monitors := by
  have hfresh := (c10_monitor_token_supersession.1 initState).1
  have hthrew := (c10_monitor_token_supersession.1 initState).2.1
  have hsup := c10_monitor_token_supersession.2
    { initState with monitors := [0], counter := 1 } [] 0 (by decide) (by decide)
  exact ⟨hfresh, by rw [hthrew]; decide, hsup.1, hsup.2⟩
